import Mathlib

/-!
Shallow embedding of the `example-drf-library` REST backend
(`src/api/views.py`, `src/api/serializers.py`,
`src/api/migrations/0004_auto_20211213_1424.py`).

Entities mirror the data model: `Book` (title, author, publication year,
featured flag; title+author unique together), `BookRecord` (reader, book,
reading state; unique per reader+book), `BookReview` (body, book, optional
reviewer; unique per reviewer+book, migration 0004), `User` with a
many-to-many favorite-books relation.  A database state is a record of
entity lists plus the favorites relation as a list of (user, book) pairs.
View functions translate the request handlers of `views.py` one by one.
-/

structure Book where
  id : Nat
  title : String
  author : String
  publication_year : Int
  featured : Bool
deriving Repr, DecidableEq

structure BookRecord where
  id : Nat
  reader : Nat
  book : Nat
  reading_state : String
deriving Repr, DecidableEq

structure BookReview where
  id : Nat
  body : String
  book : Nat
  reviewed_by : Option Nat
deriving Repr, DecidableEq

structure User where
  id : Nat
  username : String
  email : String
  password : String
deriving Repr, DecidableEq

structure DB where
  books : List Book
  bookRecords : List BookRecord
  bookReviews : List BookReview
  users : List User
  favorites : List (Nat × Nat)
deriving Repr, DecidableEq

/-- The database error raised on a violated unique constraint
(`psycopg2.errors.UniqueViolation`, surfaced as `django.db.IntegrityError`). -/
inductive DbError where
  | integrityError
deriving Repr, DecidableEq

/-- Response of a create endpoint: HTTP status plus the optional
`error` message body built in the `except IntegrityError` branches. -/
structure CreateResponse where
  status : Nat
  error : Option String
deriving Repr, DecidableEq

/-- `get_object_or_404(Book, pk=...)`: look a book up by primary key. -/
def findBook (db : DB) (pk : Nat) : Option Book :=
  db.books.find? (fun b => b.id = pk)

/-- Modelled from the spec: the database-level unique-together constraint on
(title, author) declared on the Book model (`models.py` is not in `src/`);
inserting a duplicate raises `IntegrityError`. -/
def insertBook (db : DB) (b : Book) : Except DbError DB :=
  if db.books.any (fun b2 => b2.title = b.title && b2.author = b.author) then
    .error .integrityError
  else
    .ok { db with books := db.books ++ [b] }

/-- Modelled from the spec: the database-level unique-together constraint on
(reader, book) declared on the BookRecord model (`models.py` is not in
`src/`); inserting a duplicate raises `IntegrityError`. -/
def insertBookRecord (db : DB) (r : BookRecord) : Except DbError DB :=
  if db.bookRecords.any (fun r2 => r2.reader = r.reader && r2.book = r.book) then
    .error .integrityError
  else
    .ok { db with bookRecords := db.bookRecords ++ [r] }

/-- The `unique_user_review` constraint on (reviewed_by, book) from
migration `0004_auto_20211213_1424.py`; inserting a duplicate raises
`IntegrityError`. -/
def insertBookReview (db : DB) (rv : BookReview) : Except DbError DB :=
  if db.bookReviews.any (fun r2 => r2.reviewed_by = rv.reviewed_by && r2.book = rv.book) then
    .error .integrityError
  else
    .ok { db with bookReviews := db.bookReviews ++ [rv] }

/-- The message body of `BookViewSet.create`'s 400 response. -/
def duplicateBookMessage : String :=
  "Unique constraint violation: there is already a book with this title by this author."

/-- The message body of `BookRecordViewSet.create`'s 400 response. -/
def duplicateBookRecordMessage : String :=
  "Unique constraint violation: this user has already created a book record for this book."

/-- `BookViewSet.create`: delegate to the default create and translate
`IntegrityError` into a 400 response with the duplicate-book message.
The `Except` layer records whether a database error escapes the view
(here it never does: the handler catches it). -/
def bookCreateView (db : DB) (b : Book) : Except DbError (CreateResponse × DB) :=
  match insertBook db b with
  | .ok db2 => .ok ({ status := 201, error := none }, db2)
  | .error _ => .ok ({ status := 400, error := some duplicateBookMessage }, db)

/-- `BookRecordViewSet.create` together with `perform_create`: resolve the
book named in the URL (`get_object_or_404`), save the record with the
requesting user as reader, and translate `IntegrityError` into a 400
response with the duplicate-record message. -/
def bookRecordCreateView (db : DB) (userId bookPk recId : Nat) (state : String) :
    Except DbError (CreateResponse × DB) :=
  match findBook db bookPk with
  | none => .ok ({ status := 404, error := none }, db)
  | some book =>
    match insertBookRecord db
        { id := recId, reader := userId, book := book.id, reading_state := state } with
    | .ok db2 => .ok ({ status := 201, error := none }, db2)
    | .error _ => .ok ({ status := 400, error := some duplicateBookRecordMessage }, db)

/-- `BookReviewListCreateView.perform_create`: resolve the book, save the
review with the requesting user as reviewer.  The view defines no
`except IntegrityError` handler, so a unique-constraint violation
propagates out of the view as the raw database error. -/
def bookReviewCreateView (db : DB) (userId bookPk revId : Nat) (body : String) :
    Except DbError (CreateResponse × DB) :=
  match findBook db bookPk with
  | none => .ok ({ status := 404, error := none }, db)
  | some book =>
    match insertBookReview db
        { id := revId, body := body, book := book.id, reviewed_by := some userId } with
    | .ok db2 => .ok ({ status := 201, error := none }, db2)
    | .error e => .error e

/-- Character-list version of "needle is an initial segment of hay". -/
def leadsWith : List Char → List Char → Bool
  | [], _ => true
  | _ :: _, [] => false
  | n :: ns, h :: hs => (n = h) && leadsWith ns hs

/-- Character-list version of "needle occurs contiguously inside hay". -/
def occursIn (needle : List Char) : List Char → Bool
  | [] => needle.isEmpty
  | h :: hs => leadsWith needle (h :: hs) || occursIn needle hs

/-- Model of the Django `title__icontains=s` lookup: case-insensitive
contiguous-substring test. -/
def icontains (hay needle : String) : Bool :=
  occursIn needle.toLower.toList hay.toLower.toList

/-- The class-level queryset of `BookViewSet`:
`Book.objects.all().order_by("title")`. -/
def bookDefaultQueryset (db : DB) : List Book :=
  db.books.mergeSort (fun a b => a.title ≤ b.title)

/-- `BookViewSet.get_queryset`: with a `search` query parameter, filter
books whose title contains the term case-insensitively; otherwise the
default queryset ordered by title. -/
def bookListView (db : DB) (search : Option String) : List Book :=
  match search with
  | some s => db.books.filter (fun b => icontains b.title s)
  | none => bookDefaultQueryset db

/-- `BookViewSet.featured`: `Book.objects.filter(featured=True)`. -/
def featuredView (db : DB) : List Book :=
  db.books.filter (fun b => b.featured)

/-- Modelled from the spec: the many-to-many `favorite_books` relation on
the User model (`models.py` is not in `src/`); `user.favorite_books.all()`
yields the books related to the user through the favorites table. -/
def favoriteBooks (db : DB) (userId : Nat) : List Book :=
  db.books.filter (fun b => db.favorites.any (fun p => p.1 = userId && p.2 = b.id))

/-- `BookViewSet.favorites`: serialize `request.user.favorite_books.all()`. -/
def favoritesView (db : DB) (userId : Nat) : List Book :=
  favoriteBooks db userId

/-- `BookRecordViewSet.get_queryset`: the default queryset filtered by
`reader=self.request.user, book=self.kwargs["book_pk"]`. -/
def bookRecordListView (db : DB) (userId bookPk : Nat) : List BookRecord :=
  db.bookRecords.filter (fun r => r.reader = userId && r.book = bookPk)

/-- `BookReviewListCreateView.get_queryset`: reviews of the book named in
the URL, optionally narrowed by the Postgres full-text `body__search`
lookup.  The full-text match itself is database behaviour, abstracted as
the parameter `ftsMatch body term`. -/
def bookReviewListView (db : DB) (bookPk : Nat) (search : Option String)
    (ftsMatch : String → String → Bool) : List BookReview :=
  let queryset := db.bookReviews.filter (fun r => r.book = bookPk)
  match search with
  | some s => queryset.filter (fun r => ftsMatch r.body s)
  | none => queryset

/-- Modelled from the spec: Django's many-to-many `add` is an idempotent
set-add — a pair already present is not inserted again. -/
def addFavorite (db : DB) (userId bookId : Nat) : DB :=
  if (userId, bookId) ∈ db.favorites then db
  else { db with favorites := db.favorites ++ [(userId, bookId)] }

/-- The wire shape produced by `BookDetailSerializer`: the book's fields
plus the hyperlinked primary keys of its reviews. -/
structure BookDetailData where
  pk : Nat
  title : String
  author : String
  publication_year : Int
  featured : Bool
  reviews : List Nat
deriving Repr, DecidableEq

/-- `BookDetailSerializer` applied to one book. -/
def serializeBookDetail (db : DB) (b : Book) : BookDetailData :=
  { pk := b.id, title := b.title, author := b.author,
    publication_year := b.publication_year, featured := b.featured,
    reviews := (db.bookReviews.filter (fun r => r.book = b.id)).map (fun r => r.id) }

/-- Response of the add-favorite endpoint: status plus the serialized book
body when one was produced. -/
structure FavoriteResponse where
  status : Nat
  data : Option BookDetailData
deriving Repr, DecidableEq

/-- `CreateFavoriteView.post`: look the book up (`get_object_or_404`, so a
missing pk yields 404 before any mutation), add it to the requesting
user's favorites, and answer 201 with the serialized book. -/
def createFavoriteView (db : DB) (userId bookPk : Nat) : FavoriteResponse × DB :=
  match findBook db bookPk with
  | none => ({ status := 404, data := none }, db)
  | some book =>
    let db2 := addFavorite db userId book.id
    ({ status := 201, data := some (serializeBookDetail db2 book) }, db2)

/-- Deleting a user.  The `reviewed_by` foreign key of `BookReview` is
declared `on_delete=SET_NULL, null=True` in migration 0004, so the ORM
nulls the reviewer of each of the user's reviews and keeps the rows.
Modelled from the spec for the other relations (`models.py` is not in
`src/`): the user row disappears, the user's reading records and
favorites rows go with it. -/
def deleteUser (db : DB) (userId : Nat) : DB :=
  { books := db.books,
    bookRecords := db.bookRecords.filter (fun r => r.reader ≠ userId),
    bookReviews := db.bookReviews.map (fun r =>
      if r.reviewed_by = some userId then { r with reviewed_by := none } else r),
    users := db.users.filter (fun u => u.id ≠ userId),
    favorites := db.favorites.filter (fun p => p.1 ≠ userId) }

/-! Sample database used by the concrete witnesses. -/

def bk1 : Book :=
  { id := 1, title := "Dune", author := "Herbert", publication_year := 1965, featured := true }

def bk2 : Book :=
  { id := 2, title := "Emma", author := "Austen", publication_year := 1815, featured := false }

def rec1 : BookRecord := { id := 1, reader := 1, book := 1, reading_state := "read" }

def rev1 : BookReview := { id := 1, body := "great", book := 1, reviewed_by := some 1 }

def usr1 : User := { id := 1, username := "ada", email := "ada@example.com", password := "pw" }

def sampleDB : DB :=
  { books := [bk1, bk2], bookRecords := [rec1], bookReviews := [rev1],
    users := [usr1], favorites := [(1, 2)] }

/-! Substring machinery: `occursIn` agrees with the existential
decomposition of a contiguous-substring occurrence. -/

theorem leadsWith_iff (n h : List Char) :
    leadsWith n h = true ↔ ∃ r, h = n ++ r := by
  induction n generalizing h with
  | nil => simp [leadsWith]
  | cons c cs ih =>
    cases h with
    | nil => simp [leadsWith]
    | cons d ds =>
      simp only [leadsWith, Bool.and_eq_true, decide_eq_true_eq, ih, List.cons_append,
        List.cons.injEq]
      constructor
      · rintro ⟨rfl, r, rfl⟩
        exact ⟨r, rfl, rfl⟩
      · rintro ⟨r, rfl, rfl⟩
        exact ⟨rfl, r, rfl⟩

theorem occursIn_iff (n h : List Char) :
    occursIn n h = true ↔ ∃ l r, h = l ++ n ++ r := by
  induction h with
  | nil =>
    simp only [occursIn, List.isEmpty_iff]
    constructor
    · rintro rfl
      exact ⟨[], [], rfl⟩
    · rintro ⟨l, r, he⟩
      have hlen := congrArg List.length he
      simp only [List.length_nil, List.length_append] at hlen
      exact List.length_eq_zero.mp (by omega)
  | cons d ds ih =>
    simp only [occursIn, Bool.or_eq_true, leadsWith_iff, ih]
    constructor
    · rintro (⟨r, hr⟩ | ⟨l, r, hr⟩)
      · exact ⟨[], r, by simp [hr]⟩
      · exact ⟨d :: l, r, by simp [hr]⟩
    · rintro ⟨l, r, hr⟩
      cases l with
      | nil =>
        exact Or.inl ⟨r, by simpa using hr⟩
      | cons x xs =>
        simp only [List.cons_append, List.cons.injEq] at hr
        exact Or.inr ⟨xs, r, hr.2⟩

/-- `icontains hay needle` holds exactly when the lowercased needle occurs
contiguously inside the lowercased hay. -/
theorem icontains_iff (hay needle : String) :
    icontains hay needle = true ↔
      ∃ l r, hay.toLower.toList = l ++ needle.toLower.toList ++ r := by
  simpa [icontains] using occursIn_iff needle.toLower.toList hay.toLower.toList

/-! Claim theorems. -/

/-- C1: a book creation violating the (title, author) uniqueness
constraint yields a 400 response carrying the duplicate-book message, a
reading-record creation violating the (reader, book) uniqueness
constraint yields a 400 response carrying the duplicate-record message,
and the two messages are distinct. -/
theorem C1_duplicate_create_responses
    (db : DB) (b : Book) (u pk rid : Nat) (st : String) (bk : Book)
    (hb : ∃ b2 ∈ db.books, b2.title = b.title ∧ b2.author = b.author)
    (hfind : findBook db pk = some bk)
    (hr : ∃ r ∈ db.bookRecords, r.reader = u ∧ r.book = bk.id) :
    bookCreateView db b = .ok ({ status := 400, error := some duplicateBookMessage }, db) ∧
    bookRecordCreateView db u pk rid st =
      .ok ({ status := 400, error := some duplicateBookRecordMessage }, db) ∧
    duplicateBookMessage ≠ duplicateBookRecordMessage := by
  have h1 : db.books.any (fun b2 => b2.title = b.title && b2.author = b.author) = true := by
    rw [List.any_eq_true]
    obtain ⟨b2, hm, ht, ha⟩ := hb
    exact ⟨b2, hm, by simp [ht, ha]⟩
  have h2 : db.bookRecords.any (fun r2 => r2.reader = u && r2.book = bk.id) = true := by
    rw [List.any_eq_true]
    obtain ⟨r2, hm, hr1, hr2⟩ := hr
    exact ⟨r2, hm, by simp [hr1, hr2]⟩
  refine ⟨?_, ?_, ?_⟩
  · simp [bookCreateView, insertBook, h1]
  · simp [bookRecordCreateView, hfind, insertBookRecord, h2]
  · decide

/-- A creation request duplicating `bk1`'s title and author. -/
def dupBook : Book :=
  { id := 3, title := "Dune", author := "Herbert", publication_year := 1965, featured := false }

/-- Witness for C1 at the sample database. -/
theorem C1_duplicate_create_responses_witness :
    bookCreateView sampleDB dupBook =
      .ok ({ status := 400, error := some duplicateBookMessage }, sampleDB) ∧
    bookRecordCreateView sampleDB 1 1 2 "reading" =
      .ok ({ status := 400, error := some duplicateBookRecordMessage }, sampleDB) ∧
    duplicateBookMessage ≠ duplicateBookRecordMessage :=
  C1_duplicate_create_responses sampleDB dupBook 1 1 2 "reading" bk1
    ⟨bk1, by simp [sampleDB], rfl, rfl⟩ (by decide)
    ⟨rec1, by simp [sampleDB], rfl, rfl⟩

/-- C2 counterexample: a duplicate review creation is not converted to a
400 response — the raw database error escapes `BookReviewListCreateView`,
which has no `except IntegrityError` handler. -/
theorem C2_review_duplicate_uncaught :
    bookReviewCreateView sampleDB 1 1 2 "again" = .error .integrityError := by
  rfl

/-- C2 amended: book and reading-record creation catch the uniqueness
violation and answer a structured 400, but review creation does not: the
raw database error propagates. -/
theorem C2_duplicate_catch_amended
    (db : DB) (b : Book) (u pk rid : Nat) (st : String) (bk : Book)
    (u2 pk2 rvid : Nat) (body : String) (bk2 : Book)
    (hb : ∃ b0 ∈ db.books, b0.title = b.title ∧ b0.author = b.author)
    (hfind : findBook db pk = some bk)
    (hr : ∃ r ∈ db.bookRecords, r.reader = u ∧ r.book = bk.id)
    (hfind2 : findBook db pk2 = some bk2)
    (hrv : ∃ r ∈ db.bookReviews, r.reviewed_by = some u2 ∧ r.book = bk2.id) :
    (∃ out, bookCreateView db b = .ok out ∧ out.1.status = 400) ∧
    (∃ out, bookRecordCreateView db u pk rid st = .ok out ∧ out.1.status = 400) ∧
    bookReviewCreateView db u2 pk2 rvid body = .error .integrityError := by
  have h1 : db.books.any (fun b2 => b2.title = b.title && b2.author = b.author) = true := by
    rw [List.any_eq_true]
    obtain ⟨b0, hm, ht, ha⟩ := hb
    exact ⟨b0, hm, by simp [ht, ha]⟩
  have h2 : db.bookRecords.any (fun r2 => r2.reader = u && r2.book = bk.id) = true := by
    rw [List.any_eq_true]
    obtain ⟨r2, hm, hr1, hr2⟩ := hr
    exact ⟨r2, hm, by simp [hr1, hr2]⟩
  have h3 : db.bookReviews.any
      (fun r2 => r2.reviewed_by = some u2 && r2.book = bk2.id) = true := by
    rw [List.any_eq_true]
    obtain ⟨r2, hm, hr1, hr2⟩ := hrv
    exact ⟨r2, hm, by simp [hr1, hr2]⟩
  refine ⟨?_, ?_, ?_⟩
  · refine ⟨({ status := 400, error := some duplicateBookMessage }, db), ?_, rfl⟩
    simp [bookCreateView, insertBook, h1]
  · refine ⟨({ status := 400, error := some duplicateBookRecordMessage }, db), ?_, rfl⟩
    simp [bookRecordCreateView, hfind, insertBookRecord, h2]
  · simp [bookReviewCreateView, hfind2, insertBookReview, h3]

/-- Witness for the amended C2 at the sample database. -/
theorem C2_duplicate_catch_amended_witness :
    (∃ out, bookCreateView sampleDB dupBook = .ok out ∧ out.1.status = 400) ∧
    (∃ out, bookRecordCreateView sampleDB 1 1 3 "read" = .ok out ∧ out.1.status = 400) ∧
    bookReviewCreateView sampleDB 1 1 3 "twice" = .error .integrityError :=
  C2_duplicate_catch_amended sampleDB dupBook 1 1 3 "read" bk1 1 1 3 "twice" bk1
    ⟨bk1, by simp [sampleDB], rfl, rfl⟩ (by decide)
    ⟨rec1, by simp [sampleDB], rfl, rfl⟩ (by decide)
    ⟨rev1, by simp [sampleDB], rfl, rfl⟩

/-- Adding a pair leaves the books table untouched, so book lookup is
unchanged. -/
theorem findBook_addFavorite (db : DB) (u x pk : Nat) :
    findBook (addFavorite db u x) pk = findBook db pk := by
  unfold addFavorite findBook
  split <;> rfl

/-- A pair already present makes `addFavorite` the identity. -/
theorem addFavorite_of_mem (db : DB) (u x : Nat) (h : (u, x) ∈ db.favorites) :
    addFavorite db u x = db := by
  unfold addFavorite
  rw [if_pos h]

/-- The added pair is a member afterwards. -/
theorem mem_addFavorite (db : DB) (u x : Nat) :
    (u, x) ∈ (addFavorite db u x).favorites := by
  unfold addFavorite
  split
  · assumption
  · simp

/-- C3: for an existing book, running the add-favorite endpoint twice
yields the same state as running it once, and that state holds exactly
one favorites membership for the (user, book) pair.  The well-formedness
hypothesis says the through table held at most one copy of the pair, as
its unique constraint guarantees. -/
theorem C3_addFavorite_idempotent
    (db : DB) (u pk : Nat) (bk : Book)
    (hfind : findBook db pk = some bk)
    (hwf : db.favorites.count (u, bk.id) ≤ 1) :
    (createFavoriteView (createFavoriteView db u pk).2 u pk).2 =
      (createFavoriteView db u pk).2 ∧
    ((createFavoriteView db u pk).2).favorites.count (u, bk.id) = 1 := by
  have hfind1 : findBook (addFavorite db u bk.id) pk = some bk := by
    rw [findBook_addFavorite]; exact hfind
  have hstep : (createFavoriteView db u pk).2 = addFavorite db u bk.id := by
    simp [createFavoriteView, hfind]
  constructor
  · rw [hstep]
    simp only [createFavoriteView, hfind1]
    exact addFavorite_of_mem _ u bk.id (mem_addFavorite db u bk.id)
  · rw [hstep]
    unfold addFavorite
    split
    · next hmem =>
      have h1 : 0 < db.favorites.count (u, bk.id) := List.count_pos_iff.mpr hmem
      omega
    · next hnm =>
      simp [List.count_append, List.count_eq_zero.mpr hnm]

/-- Witness for C3 at the sample database: book 1 is not yet favorited. -/
theorem C3_addFavorite_idempotent_witness :
    (createFavoriteView (createFavoriteView sampleDB 1 1).2 1 1).2 =
      (createFavoriteView sampleDB 1 1).2 ∧
    ((createFavoriteView sampleDB 1 1).2).favorites.count (1, bk1.id) = 1 :=
  C3_addFavorite_idempotent sampleDB 1 1 bk1 (by decide) (by decide)

/-- C4: the featured endpoint returns exactly the stored books whose
featured flag is set. -/
theorem C4_featured_exact (db : DB) (b : Book) :
    b ∈ featuredView db ↔ b ∈ db.books ∧ b.featured = true := by
  simp [featuredView, List.mem_filter]

/-- C5: with a search parameter the book list holds exactly the books
whose lowercased title has the lowercased term as a contiguous substring;
without one it holds exactly the stored books. -/
theorem C5_bookList_search (db : DB) (s : String) (b : Book) :
    (b ∈ bookListView db (some s) ↔
      b ∈ db.books ∧ ∃ l r, b.title.toLower.toList = l ++ s.toLower.toList ++ r) ∧
    (b ∈ bookListView db none ↔ b ∈ db.books) := by
  constructor
  · simp [bookListView, List.mem_filter, icontains_iff]
  · simp [bookListView, bookDefaultQueryset, List.mem_mergeSort]

/-- C6: the nested review list holds only reviews of the book in the URL,
and a search term further restricts it to reviews whose body matches the
full-text predicate. -/
theorem C6_reviewList_scoped (db : DB) (pk : Nat) (fts : String → String → Bool)
    (s : String) (r : BookReview) :
    (r ∈ bookReviewListView db pk none fts ↔ r ∈ db.bookReviews ∧ r.book = pk) ∧
    (r ∈ bookReviewListView db pk (some s) fts ↔
      r ∈ db.bookReviews ∧ r.book = pk ∧ fts r.body s = true) := by
  constructor
  · simp [bookReviewListView, List.mem_filter]
  · simp only [bookReviewListView, List.mem_filter, decide_eq_true_eq]
    tauto

/-- C7: the favorites endpoint returns exactly the stored books related to
the requesting user through the favorites table. -/
theorem C7_favorites_exact (db : DB) (u : Nat) (b : Book) :
    b ∈ favoritesView db u ↔ b ∈ db.books ∧ (u, b.id) ∈ db.favorites := by
  simp only [favoritesView, favoriteBooks, List.mem_filter, List.any_eq_true,
    Bool.and_eq_true, decide_eq_true_eq]
  refine and_congr_right fun _ => ⟨?_, ?_⟩
  · rintro ⟨⟨p1, p2⟩, hm, rfl, rfl⟩
    exact hm
  · intro hm
    exact ⟨(u, b.id), hm, rfl, rfl⟩

/-- C8: deleting a user keeps every review row in place (same list
length, pointwise correspondence in order) with body and book unchanged,
and the reviewer reference becomes null exactly on the deleted user's
reviews. -/
theorem C8_deleteUser_reviews (db : DB) (u : Nat) :
    (deleteUser db u).bookReviews.length = db.bookReviews.length ∧
    List.Forall₂ (fun r r2 : BookReview =>
        r2.body = r.body ∧ r2.book = r.book ∧
        r2.reviewed_by = if r.reviewed_by = some u then none else r.reviewed_by)
      db.bookReviews (deleteUser db u).bookReviews := by
  constructor
  · simp [deleteUser]
  · simp only [deleteUser]
    rw [List.forall₂_map_right_iff]
    rw [List.forall₂_same]
    intro r hr
    split <;> simp_all

/-- C9: the nested reading-record list holds exactly the records whose
reader is the requesting user and whose book is the one in the URL. -/
theorem C9_recordList_scoped (db : DB) (u pk : Nat) (r : BookRecord) :
    r ∈ bookRecordListView db u pk ↔
      r ∈ db.bookRecords ∧ r.reader = u ∧ r.book = pk := by
  simp [bookRecordListView, List.mem_filter, and_assoc]

/-- C10: for an existing book the add-favorite endpoint answers 201 with
the serialized book whether or not it was already favorited; for a
missing book id it answers 404 and leaves the state (in particular the
favorites relation) unchanged. -/
theorem C10_createFavorite_responses (db : DB) (u pk : Nat) :
    (∀ bk, findBook db pk = some bk →
      (createFavoriteView db u pk).1 =
        { status := 201, data := some (serializeBookDetail db bk) }) ∧
    (findBook db pk = none →
      createFavoriteView db u pk = ({ status := 404, data := none }, db)) := by
  constructor
  · intro bk hbk
    have hser : serializeBookDetail (addFavorite db u bk.id) bk = serializeBookDetail db bk := by
      unfold addFavorite serializeBookDetail
      split <;> rfl
    simp [createFavoriteView, hbk, hser]
  · intro hnone
    simp [createFavoriteView, hnone]

/-- Witness for C10: book 1 exists in the sample database, book 99 does
not. -/
theorem C10_createFavorite_responses_witness :
    (createFavoriteView sampleDB 1 1).1 =
      { status := 201, data := some (serializeBookDetail sampleDB bk1) } ∧
    createFavoriteView sampleDB 1 99 = ({ status := 404, data := none }, sampleDB) :=
  ⟨(C10_createFavorite_responses sampleDB 1 1).1 bk1 (by decide),
   (C10_createFavorite_responses sampleDB 1 99).2 (by decide)⟩
